import Mathlib

/-!
Verification of the generation-orchestration core of `gentextAPI`.

Shallow embedding of:
  * `server/improved_generator.py` — the GPT-2 adapter's candidate filter
    (`_filter_sentences`, `_is_valid_sentence`, `_get_embeddings`,
    `generate_false_statements`, `generate_statements_batch`);
  * `server/claude_generator.py` — the remote Claude adapter's response
    parsing (`generate_false_statements`);
  * `server/generator_factory.py` and
    `server/src/generators/generator_factory.py` — the factory/orchestrator
    (`get_generator`, `generate_false_statements`, `generate_batch_async`);
  * `server/fastapi_app.py` — the `/generate/statements` endpoint.

External ML services (the spaCy parser, the NLTK sentence tokenizer, the
BERT sentence encoder and its cosine similarity) are opaque collaborators
of the code; they are embedded as explicit function parameters collected in
`NlpEnv`.  A `none` result of such a parameter models the Python call
raising an exception at that point.  Similarity scores are rationals.
-/

/-- Accumulator loop behind `pySplit`: split a character list on runs of
whitespace, dropping empty pieces.  (Structural recursion, so that concrete
runs reduce inside the kernel; the core `String.split` is well-founded and
does not.) -/
def wordsAux : List Char → List Char → List (List Char)
  | [], acc => if acc.isEmpty then [] else [acc.reverse]
  | c :: cs, acc =>
    if c.isWhitespace then
      if acc.isEmpty then wordsAux cs [] else acc.reverse :: wordsAux cs []
    else wordsAux cs (c :: acc)

/-- Python `str.split()` with no argument: split on runs of whitespace,
dropping empty pieces. -/
def pySplit (s : String) : List String :=
  (wordsAux s.data []).map List.asString

/-- Python `str.strip()`: remove leading and trailing whitespace. -/
def pyStrip (s : String) : String :=
  List.asString
    (((s.data.dropWhile Char.isWhitespace).reverse.dropWhile Char.isWhitespace).reverse)

/-- Split a character list at every occurrence of `sep`, keeping empty
pieces — the semantics of Python `str.split(sep)` with an explicit
separator. -/
def splitOnChar (sep : Char) : List Char → List (List Char)
  | [] => [[]]
  | c :: cs =>
    let r := splitOnChar sep cs
    if c = sep then [] :: r
    else
      match r with
      | [] => [[c]]
      | w :: ws => (c :: w) :: ws

/-- Python `text.split('\n')`. -/
def pyLines (s : String) : List String :=
  (splitOnChar '\n' s.data).map List.asString

/-- Python `s.startswith(p)`. -/
def pyStartsWith (p s : String) : Bool :=
  p.data.isPrefixOf s.data

/-- Numeric value of a string of decimal digits (used only by the
spec-modelled year heuristic). -/
def digitsToNat (cs : List Char) : Nat :=
  cs.foldl (fun n c => 10 * n + (c.toNat - '0'.toNat)) 0

/-- Number of whitespace-separated words, as `len(sentence.split())`. -/
def wordCount (s : String) : Nat :=
  (pySplit s).length

/-- The opaque NLP collaborators used by `ImprovedFalseStatementGenerator`.
`Emb` is the (abstract) type of sentence-embedding vectors. -/
structure NlpEnv (Emb : Type) where
  /-- `nltk.tokenize.sent_tokenize`; `none` models a raised exception
  (caught in `_filter_sentences`, which then skips the candidate). -/
  sentTok : String → Option (List String)
  /-- The spaCy dependency parse as used by `_is_valid_sentence`: on
  success `some (has_verb, has_subject)`; `none` models a raised
  exception (the `except` branch of `_is_valid_sentence`). -/
  nlp : String → Option (Bool × Bool)
  /-- The BERT sentence encoder behind `_get_embeddings`.  `some f` models
  a working encoder mapping each sentence to its embedding; `none` models
  `bert_model.encode` raising, in which case `_get_embeddings` returns
  `None` for the whole call. -/
  encode : Option (String → Emb)
  /-- `_calculate_similarity`: `1 - scipy.spatial.distance.cosine`, a total
  function (its own `except` branch returns `0.0`, folded in here). -/
  sim : Emb → Emb → ℚ

namespace ImprovedGenerator

/-- `_is_valid_sentence` of `server/improved_generator.py` (lines 402-416):
reject on word count outside `[5, 30]`; otherwise ask the dependency parse
for a verb and a nominal subject; a parser exception is fail-open
(`return True`). -/
def is_valid_sentence (nlp : String → Option (Bool × Bool)) (sentence : String) : Bool :=
  if wordCount sentence < 5 ∨ 30 < wordCount sentence then
    false
  else
    match nlp sentence with
    | some (has_verb, has_subject) => has_verb && has_subject
    | none => true

/-- The cleaning/validation loop of `_filter_sentences` (lines 355-367):
per candidate, first sentence of `sent_tokenize`, stripped, kept when
`_is_valid_sentence` accepts it; a tokenizer exception or an empty
tokenization skips the candidate. -/
def clean_candidates {Emb : Type} (env : NlpEnv Emb) (candidates : List String) :
    List String :=
  candidates.filterMap (fun sent =>
    match env.sentTok sent with
    | none => none
    | some [] => none
    | some (first :: _) =>
      let cleaned_sent := pyStrip first
      if is_valid_sentence env.nlp cleaned_sent then some cleaned_sent else none)

/-- `_get_embeddings` (lines 418-433): encodes every sentence (the batching
by 32 is performance-only and value-preserving); any exception yields
`none` for the whole call. -/
def get_embeddings {Emb : Type} (encode : Option (String → Emb))
    (sentences : List String) : Option (List Emb) :=
  match encode with
  | none => none
  | some f => some (sentences.map f)

/-- The similarity-band loop of `_filter_sentences` (lines 381-392): keep
`(candidate, similarity)` when `0.3 < similarity < threshold`; an index
error past the end of the embedding list skips the remaining candidates
(modelled by the truncation of `zip`). -/
def band_survivors {Emb : Type} (env : NlpEnv Emb) (origEmb : Emb)
    (candEmbs : List Emb) (cleaned : List String) (threshold : ℚ) :
    List (String × ℚ) :=
  (cleaned.zip candEmbs).filterMap (fun ce =>
    let similarity := env.sim origEmb ce.2
    if mkRat 3 10 < similarity ∧ similarity < threshold then some (ce.1, similarity)
    else none)

/-- The ranking order of `_filter_sentences` line 395:
`key=lambda x: abs(0.6 - x["similarity"])`, ascending (`mkRat 3 5` is
`0.6`). -/
def rankLE (a b : String × ℚ) : Prop :=
  |mkRat 3 5 - a.2| ≤ |mkRat 3 5 - b.2|

instance : DecidableRel rankLE := fun a b =>
  if h : |mkRat 3 5 - a.2| ≤ |mkRat 3 5 - b.2| then .isTrue h else .isFalse h

instance : IsTotal (String × ℚ) rankLE :=
  ⟨fun a b => le_total |mkRat 3 5 - a.2| |mkRat 3 5 - b.2|⟩

instance : IsTrans (String × ℚ) rankLE := ⟨fun _ _ _ => le_trans⟩

/-- `_filter_sentences` (lines 349-400).  Python's `list.sort` is stable;
a stable sort with respect to a total preorder is extensionally unique, so
it is embedded as Mathlib's stable `insertionSort`.  The `some []` branch
models the `IndexError` of `embeddings[0]` reaching the outer `except`,
whose fallback is `cleaned_candidates[:max_results]` (unreachable here,
since the encoded list is nonempty). -/
def filter_sentences {Emb : Type} (env : NlpEnv Emb) (original_sentence : String)
    (candidates : List String) (threshold : ℚ) (max_results : Nat) : List String :=
  if candidates.isEmpty then []
  else
    let cleaned := clean_candidates env candidates
    if cleaned.isEmpty then []
    else
      match get_embeddings env.encode ([original_sentence] ++ cleaned) with
      | none => cleaned.take max_results
      | some [] => cleaned.take max_results
      | some (origEmb :: candEmbs) =>
        let filtered := band_survivors env origEmb candEmbs cleaned threshold
        ((List.insertionSort rankLE filtered).take max_results).map Prod.fst

/-- `generate_false_statements` of the GPT-2 adapter (lines 300-347): the
GPT-2 pipeline output is opaque (`pipelineOut`; `Except.error` models the
pipeline raising, caught with `return []`); on success the generated texts
go through `_filter_sentences` with the default threshold `0.75` and
`max_results = num_statements`. -/
def generate_false_statements {Emb E : Type} (env : NlpEnv Emb)
    (pipelineOut : Except E (List String)) (full_sentence : String)
    (num_statements : Nat) : List String :=
  match pipelineOut with
  | .error _ => []
  | .ok generated_sentences =>
    filter_sentences env full_sentence generated_sentences (mkRat 3 4)
      num_statements

end ImprovedGenerator

namespace ClaudeGenerator

/-- ASCII model of Python `str.isdigit()`: nonempty and all digits. -/
def pyIsDigit (s : String) : Bool :=
  !s.data.isEmpty && s.data.all Char.isDigit

/-- The response-parsing tail of `ClaudeFalseStatementGenerator.
generate_false_statements` (`server/claude_generator.py` lines 126-135):
split the text block on newlines, strip each line, drop empty and
digit-only lines, truncate to `num_statements`, and re-prepend the
partial-sentence fragment to any line that does not already start with
it. -/
def parse_statements (frag : String) (text_response : String)
    (num_statements : Nat) : List String :=
  let lines := (pyLines (pyStrip text_response)).map pyStrip
  let statements := (lines.filter (fun l => l ≠ "" && !pyIsDigit l)).take num_statements
  statements.map (fun statement =>
    if pyStartsWith frag statement then statement else frag ++ statement)

/-- `generate_false_statements` of the Claude adapter (lines 83-142).  The
HTTP call is opaque: `apiContent` is the `content` array's text blocks on
success, and `Except.error` models the request (or retries) raising —
caught by the outer `except`, which returns `[]`.  An empty `content`
array is the "Invalid response format" branch. -/
def generate_false_statements {E : Type} (apiContent : Except E (List String))
    (frag : String) (num_statements : Nat) : List String :=
  match apiContent with
  | .error _ => []
  | .ok [] => []
  | .ok (text_response :: _) => parse_statements frag text_response num_statements

end ClaudeGenerator

namespace GeneratorFactory

/-- A generator adapter, abstracted to its per-item generation behaviour:
given the partial fragment, the full sentence and the requested count it
either returns statements or raises (`Except.error`). -/
def GenFn (E : Type) : Type := String → String → Nat → Except E (List String)

/-- The generator registry `self.generators`, as an association list over
the string keys used by the code. -/
def Registry (E : Type) : Type := List (String × GenFn E)

/-- `StatementGeneratorFactory.get_generator` of
`server/generator_factory.py` (lines 63-79): exact key lookup, then the
fallback chain `generators.get('claude', generators.get('gpt2', None))`. -/
def get_generator {E : Type} (generators : Registry E) (generator_type : String) :
    Option (GenFn E) :=
  match List.lookup generator_type generators with
  | some g => some g
  | none =>
    match List.lookup "claude" generators with
    | some g => some g
    | none => List.lookup "gpt2" generators

/-- `get_generator` of the nested copy
`server/src/generators/generator_factory.py` (lines 83-98): exact key
lookup with fallback to `gpt2` only. -/
def get_generator_nested {E : Type} (generators : Registry E)
    (generator_type : String) : Option (GenFn E) :=
  match List.lookup generator_type generators with
  | some g => some g
  | none => List.lookup "gpt2" generators

/-- `StatementGeneratorFactory.generate_false_statements` (lines 81-114):
no registered generator logs "No generator available" and returns `[]`;
an adapter exception is caught and also degrades to `[]`. -/
def generate_false_statements {E : Type} (generators : Registry E)
    (generator_type frag full_sentence : String) (num_statements : Nat) :
    List String :=
  match get_generator generators generator_type with
  | none => []
  | some generator =>
    match generator frag full_sentence num_statements with
    | .ok statements => statements
    | .error _ => []

/-- One iteration of the per-item loop of
`ImprovedFalseStatementGenerator.generate_statements_batch` (lines
474-480): the item's result, with any exception converted to `[]`. -/
def batch_item {E : Type} (gen : GenFn E) (num_statements : Nat)
    (pf : String × String) : List String :=
  match gen pf.1 pf.2 num_statements with
  | .ok statements => statements
  | .error _ => []

/-- The chunked processing loop of `generate_statements_batch` (lines
465-482): slices of size `bsz` are zipped and processed item by item.  In
the source `bsz = min(self.max_batch_size, len(partial_sentences))` is
never `0` on this path (the caller guarantees a nonempty list and
`max_batch_size` defaults to `10`); a `bsz = 0` guard is added only to
make the recursion well-founded. -/
def process_batches {E : Type} (gen : GenFn E) (num_statements bsz : Nat)
    (ps fs : List String) : List (List String) :=
  if h : bsz = 0 ∨ ps.isEmpty then []
  else
    ((ps.take bsz).zip (fs.take bsz)).map (batch_item gen num_statements)
      ++ process_batches gen num_statements bsz (ps.drop bsz) (fs.drop bsz)
termination_by ps.length
decreasing_by
  simp only [not_or, List.isEmpty_iff] at h
  simp only [List.length_drop]
  have hp : 0 < ps.length := List.length_pos.mpr h.2
  omega

/-- `ImprovedFalseStatementGenerator.generate_statements_batch` (lines
443-484): an empty partial list or a length mismatch yields one empty
result per (larger) input; otherwise the inputs are processed in chunks of
`min max_batch_size n` with per-item exception recovery. -/
def generate_statements_batch {E : Type} (gen : GenFn E) (max_batch_size : Nat)
    (ps fs : List String) (num_statements : Nat) : List (List String) :=
  if ps.isEmpty ∨ ps.length ≠ fs.length then
    List.replicate (max ps.length fs.length) []
  else
    process_batches gen num_statements (min max_batch_size ps.length) ps fs

/-- The batch timeout of `generate_batch_async` in
`server/generator_factory.py` line 192: `max(120, 45 * n)` seconds. -/
def batch_timeout (n : Nat) : Nat := max 120 (45 * n)

/-- The batch timeout of the nested copy
`server/src/generators/generator_factory.py` line 210:
`max(60, 30 * n)` seconds. -/
def batch_timeout_nested (n : Nat) : Nat := max 60 (30 * n)

/-- `StatementGeneratorFactory.generate_batch_async` of
`server/generator_factory.py` (lines 145-228).  `elapsed` is the
wall-clock duration the underlying `generate_statements_batch` task would
take; `asyncio.wait_for` raises `TimeoutError` exactly when it exceeds the
computed timeout, and the handler returns one empty placeholder per input.
Both adapter classes define `generate_statements_batch`, so the
`hasattr` test always takes the batch branch and the `gather` fallback is
dead code; `_ensure_models_loaded` does not affect the result. -/
def generate_batch_async {E : Type} (generators : Registry E)
    (generator_type : String) (max_batch_size : Nat) (elapsed : Nat)
    (ps fs : List String) (num_statements : Nat) : List (List String) :=
  match get_generator generators generator_type with
  | none => ps.map (fun _ => [])
  | some gen =>
    if batch_timeout ps.length < elapsed then ps.map (fun _ => [])
    else generate_statements_batch gen max_batch_size ps fs num_statements

/-- `generate_batch_async` of the nested copy
`server/src/generators/generator_factory.py` (lines 164-246): identical
orchestration, but with its own `get_generator` fallback and the timeout
`max(60, 30 * n)`. -/
def generate_batch_async_nested {E : Type} (generators : Registry E)
    (generator_type : String) (max_batch_size : Nat) (elapsed : Nat)
    (ps fs : List String) (num_statements : Nat) : List (List String) :=
  match get_generator_nested generators generator_type with
  | none => ps.map (fun _ => [])
  | some gen =>
    if batch_timeout_nested ps.length < elapsed then ps.map (fun _ => [])
    else generate_statements_batch gen max_batch_size ps fs num_statements

end GeneratorFactory

namespace FastAPIApp

open GeneratorFactory

/-- The response of the `/generate/statements` endpoint, restricted to the
fields the core computes (the timestamp is IO and omitted): either the
success body or a raised `HTTPException (status_code, detail)`. -/
inductive StatementsResponse where
  | success (original_sentence frag : String) (false_sentences : List String)
      (generator_used : String)
  | httpError (status_code : Nat) (detail : String)
deriving DecidableEq

/-- `generate_statements` of `server/fastapi_app.py` (lines 132-185):
validation (nonempty sentence, `1 ≤ num_statements ≤ 10`), derivation of a
missing/empty partial fragment as the first half of the tokenized words
(`tokenize` stands for `nltk.word_tokenize`), then the factory call with
generator kind `'gpt2'`, wrapped in a success body. -/
def generate_statements (tokenize : String → List String) {E : Type}
    (generators : Registry E) (full_sentence : String) (fragOpt : Option String)
    (num_statements : Nat) : StatementsResponse :=
  if full_sentence = "" then .httpError 400 "Full sentence is required"
  else if num_statements < 1 ∨ 10 < num_statements then
    .httpError 400 "Number of statements must be between 1 and 10"
  else
    let given := fragOpt.getD ""
    if given = "" then
      let words := tokenize full_sentence
      if words.length < 4 then .httpError 400 "Full sentence is too short"
      else
        let frag := String.intercalate " " (words.take (words.length / 2))
        .success full_sentence frag
          (generate_false_statements generators "gpt2" frag full_sentence
            num_statements) "gpt2"
    else
      .success full_sentence given
        (generate_false_statements generators "gpt2" given full_sentence
          num_statements) "gpt2"

end FastAPIApp

/-- Modelled from the spec: the year-anachronism heuristic of §4.2 step 3
("discard candidates containing a year value ... default: discard years
greater than 2000").  No such check exists anywhere in the source; this
predicate (a whitespace-separated four-digit token whose value exceeds the
bound, after the source's `\b\d{4}\b` year shape) is used only to state
that claim. -/
def containsYearAfter (bound : Nat) (s : String) : Bool :=
  (pySplit s).any (fun w =>
    w.data.length = 4 && w.data.all Char.isDigit && bound < digitsToNat w.data)

/-! Concrete instantiations of the opaque collaborators, used to evaluate
the theorems below on closed inputs. -/

/-- A concrete embedding function (every sentence embeds to `0`). -/
def fW : String → ℚ := fun _ => 0

/-- A concrete working NLP environment: the tokenizer returns its input as
a single sentence, the parser always finds a verb and a subject, the
encoder works, and every similarity is `0.5`. -/
def envW : NlpEnv ℚ where
  sentTok := fun s => some [s]
  nlp := fun _ => some (true, true)
  encode := some fW
  sim := fun _ _ => mkRat 1 2

/-- As `envW`, but the sentence encoder raises. -/
def envNoEmb : NlpEnv ℚ where
  sentTok := fun s => some [s]
  nlp := fun _ => some (true, true)
  encode := none
  sim := fun _ _ => mkRat 1 2

/-- A dependency parser that always raises. -/
def nlpNone : String → Option (Bool × Bool) := fun _ => none

/-- A concrete adapter that always succeeds with one statement. -/
def demoGen : GeneratorFactory.GenFn Unit := fun _ _ _ => Except.ok ["x"]

/-- A registry holding only the GPT-2 slot, filled with `demoGen`. -/
def demoGens : GeneratorFactory.Registry Unit := [("gpt2", demoGen)]


/-! Helper lemmas about the candidate filter. -/

namespace ImprovedGenerator

theorem zip_map_self {α β : Type} (f : α → β) :
    ∀ l : List α, l.zip (l.map f) = l.map (fun c => (c, f c)) := by
  intro l
  induction l with
  | nil => rfl
  | cons c cs ih => simp [ih]

/-- When the encoder works, the filter is the band-filter-sort-truncate
pipeline over the cleaned candidates. -/
theorem filter_sentences_encode_some {Emb : Type} (env : NlpEnv Emb)
    (f : String → Emb) (h : env.encode = some f) (original : String)
    (candidates : List String) (threshold : ℚ) (max_results : Nat) :
    filter_sentences env original candidates threshold max_results =
      ((List.insertionSort rankLE
          (band_survivors env (f original)
            ((clean_candidates env candidates).map f)
            (clean_candidates env candidates) threshold)).take max_results).map
        Prod.fst := by
  unfold filter_sentences
  by_cases hc : candidates.isEmpty
  · rw [List.isEmpty_iff] at hc
    subst hc
    simp [clean_candidates, band_survivors]
  · simp only [hc, Bool.false_eq_true, if_false]
    by_cases hcl : (clean_candidates env candidates).isEmpty
    · rw [List.isEmpty_iff] at hcl
      simp only [hcl, List.isEmpty_nil, if_true]
      simp [band_survivors]
    · simp only [hcl, Bool.false_eq_true, if_false, get_embeddings, h,
        List.singleton_append, List.map_cons]

/-- Every entry of the band-survivor list carries the similarity of its
text to the original embedding, and that similarity lies strictly inside
the band. -/
theorem mem_band_survivors {Emb : Type} (env : NlpEnv Emb) (e0 : Emb)
    (f : String → Emb) (cleaned : List String) (threshold : ℚ)
    (p : String × ℚ)
    (hp : p ∈ band_survivors env e0 (cleaned.map f) cleaned threshold) :
    p.2 = env.sim e0 (f p.1) ∧ mkRat 3 10 < p.2 ∧ p.2 < threshold := by
  unfold band_survivors at hp
  rw [zip_map_self f cleaned, List.filterMap_map] at hp
  obtain ⟨a, _, ha⟩ := List.mem_filterMap.mp hp
  simp only [Function.comp_apply] at ha
  split_ifs at ha with hband
  obtain rfl := Option.some_injective _ ha
  exact ⟨rfl, hband⟩

end ImprovedGenerator

/-- C1: for every filtering run in which embedding computation succeeds,
every false statement returned by the candidate filter has a cosine
similarity to the original sentence strictly greater than `0.3` and
strictly less than the configured threshold. -/
theorem c1_similarity_band {Emb : Type} (env : NlpEnv Emb) (f : String → Emb)
    (h : env.encode = some f) (original : String) (candidates : List String)
    (threshold : ℚ) (max_results : Nat) :
    ∀ t ∈ ImprovedGenerator.filter_sentences env original candidates threshold
        max_results,
      mkRat 3 10 < env.sim (f original) (f t) ∧
        env.sim (f original) (f t) < threshold := by
  intro t ht
  rw [ImprovedGenerator.filter_sentences_encode_some env f h] at ht
  obtain ⟨p, hp, rfl⟩ := List.mem_map.mp ht
  have hp2 := List.mem_of_mem_take hp
  have hp3 := (List.perm_insertionSort ImprovedGenerator.rankLE _).mem_iff.mp hp2
  have hband := ImprovedGenerator.mem_band_survivors env (f original) f _ threshold p hp3
  exact ⟨hband.1 ▸ hband.2.1, hband.1 ▸ hband.2.2⟩

/-- Witness for C1: with the concrete environment `envW` (similarity `0.5`
everywhere, threshold `0.75`), the returned candidate `"a b c d e"` has its
similarity strictly inside the band. -/
theorem c1_similarity_band_witness :
    envW.encode = some fW ∧
      (mkRat 3 10 < envW.sim (fW "o") (fW "a b c d e") ∧
        envW.sim (fW "o") (fW "a b c d e") < mkRat 3 4) :=
  ⟨rfl, c1_similarity_band envW fW rfl "o" ["a b c d e"] (mkRat 3 4) 3
    "a b c d e" (by decide)⟩

/-- C8: if embedding computation fails, the candidate filter returns the
first `max_results` structurally-valid cleaned candidates, in their
original order, rather than failing the whole request. -/
theorem c8_embedding_failure_fallback {Emb : Type} (env : NlpEnv Emb)
    (h : env.encode = none) (original : String) (candidates : List String)
    (threshold : ℚ) (max_results : Nat) :
    ImprovedGenerator.filter_sentences env original candidates threshold
        max_results =
      (ImprovedGenerator.clean_candidates env candidates).take max_results := by
  unfold ImprovedGenerator.filter_sentences
  by_cases hc : candidates.isEmpty
  · rw [List.isEmpty_iff] at hc
    subst hc
    simp [ImprovedGenerator.clean_candidates]
  · simp only [hc, Bool.false_eq_true, if_false]
    by_cases hcl : (ImprovedGenerator.clean_candidates env candidates).isEmpty
    · rw [List.isEmpty_iff] at hcl
      simp [hcl]
    · simp only [hcl, Bool.false_eq_true, if_false,
        ImprovedGenerator.get_embeddings, h]

/-- Witness for C8: with the encoder of `envNoEmb` raising, the filter
degrades to the first `max_results` cleaned candidates. -/
theorem c8_embedding_failure_fallback_witness :
    envNoEmb.encode = none ∧
      ImprovedGenerator.filter_sentences envNoEmb "o" ["a b c d e", "x"]
          (mkRat 3 4) 1 =
        (ImprovedGenerator.clean_candidates envNoEmb ["a b c d e", "x"]).take 1 :=
  ⟨rfl, c8_embedding_failure_fallback envNoEmb rfl "o" ["a b c d e", "x"]
    (mkRat 3 4) 1⟩

/-- C9: when the encoder works, the band survivors are ranked by absolute
distance of their similarity from `0.6` (smallest first, stably) and the
filter returns exactly the texts of the top `max_results` of that ranking:
the result is the image of a `chosen` block that is sorted, has length
`min max_results (number of survivors)`, and ranks no worse than every
dropped survivor. -/
theorem c9_rank_and_truncate {Emb : Type} (env : NlpEnv Emb) (f : String → Emb)
    (h : env.encode = some f) (original : String) (candidates : List String)
    (threshold : ℚ) (max_results : Nat) :
    ∃ chosen rest : List (String × ℚ),
      (ImprovedGenerator.band_survivors env (f original)
          ((ImprovedGenerator.clean_candidates env candidates).map f)
          (ImprovedGenerator.clean_candidates env candidates) threshold).Perm
        (chosen ++ rest) ∧
      ImprovedGenerator.filter_sentences env original candidates threshold
          max_results =
        chosen.map Prod.fst ∧
      chosen.length = min max_results
        (ImprovedGenerator.band_survivors env (f original)
          ((ImprovedGenerator.clean_candidates env candidates).map f)
          (ImprovedGenerator.clean_candidates env candidates) threshold).length ∧
      List.Pairwise ImprovedGenerator.rankLE chosen ∧
      ∀ a ∈ chosen, ∀ b ∈ rest, ImprovedGenerator.rankLE a b := by
  set survivors := ImprovedGenerator.band_survivors env (f original)
    ((ImprovedGenerator.clean_candidates env candidates).map f)
    (ImprovedGenerator.clean_candidates env candidates) threshold with hsurv
  refine ⟨(List.insertionSort ImprovedGenerator.rankLE survivors).take max_results,
    (List.insertionSort ImprovedGenerator.rankLE survivors).drop max_results,
    ?_, ?_, ?_, ?_, ?_⟩
  · rw [List.take_append_drop]
    exact (List.perm_insertionSort _ survivors).symm
  · exact ImprovedGenerator.filter_sentences_encode_some env f h original
      candidates threshold max_results
  · rw [List.length_take,
      (List.perm_insertionSort ImprovedGenerator.rankLE survivors).length_eq]
  · exact List.Pairwise.sublist (List.take_sublist _ _)
      (List.sorted_insertionSort ImprovedGenerator.rankLE survivors)
  · have hsort := List.sorted_insertionSort ImprovedGenerator.rankLE survivors
    rw [← List.take_append_drop max_results
      (List.insertionSort ImprovedGenerator.rankLE survivors)] at hsort
    exact fun a ha b hb => (List.pairwise_append.mp hsort).2.2 a ha b hb

/-- Witness for C9: the ranking/truncation shape at the concrete
environment `envW`. -/
theorem c9_rank_and_truncate_witness :
    envW.encode = some fW ∧
      (∃ chosen rest : List (String × ℚ),
        (ImprovedGenerator.band_survivors envW (fW "o")
            ((ImprovedGenerator.clean_candidates envW ["a b c d e"]).map fW)
            (ImprovedGenerator.clean_candidates envW ["a b c d e"])
            (mkRat 3 4)).Perm (chosen ++ rest) ∧
        ImprovedGenerator.filter_sentences envW "o" ["a b c d e"] (mkRat 3 4) 3 =
          chosen.map Prod.fst ∧
        chosen.length = min 3
          (ImprovedGenerator.band_survivors envW (fW "o")
            ((ImprovedGenerator.clean_candidates envW ["a b c d e"]).map fW)
            (ImprovedGenerator.clean_candidates envW ["a b c d e"])
            (mkRat 3 4)).length ∧
        List.Pairwise ImprovedGenerator.rankLE chosen ∧
        ∀ a ∈ chosen, ∀ b ∈ rest, ImprovedGenerator.rankLE a b) :=
  ⟨rfl, c9_rank_and_truncate envW fW rfl "o" ["a b c d e"] (mkRat 3 4) 3⟩

/-- C10: the structural-validity check is fail-open on parser errors — a
sentence whose word count is within `[5, 30]` and whose dependency parse
raises is accepted. -/
theorem c10_fail_open_validity (nlp : String → Option (Bool × Bool)) (s : String)
    (h1 : 5 ≤ wordCount s) (h2 : wordCount s ≤ 30) (h3 : nlp s = none) :
    ImprovedGenerator.is_valid_sentence nlp s = true := by
  unfold ImprovedGenerator.is_valid_sentence
  rw [if_neg (by omega), h3]

/-- Witness for C10: a 5-word sentence is accepted when the parser raises. -/
theorem c10_fail_open_validity_witness :
    ImprovedGenerator.is_valid_sentence nlpNone "a b c d e" = true :=
  c10_fail_open_validity nlpNone "a b c d e" (by decide) (by decide) rfl

/-- C7 counterexample: a structurally-accepted candidate containing the
year `2050` ( > 2000 ) survives the validity step — the source has no year
check, contradicting the claim that such candidates are discarded before
similarity filtering. -/
theorem c7_counterexample :
    "The war ended in 2050 now" ∈
        ImprovedGenerator.clean_candidates envW ["The war ended in 2050 now"] ∧
      containsYearAfter 2000 "The war ended in 2050 now" = true := by
  decide

/-- C7 as amended: every candidate surviving the structural-validity step
has a word count within `[5, 30]`, and whenever the dependency parse
succeeds it reported a verb and a grammatical subject (on parse failure
the check is fail-open); no year-based check is applied. -/
theorem c7_amended_validity {Emb : Type} (env : NlpEnv Emb)
    (candidates : List String) (s : String)
    (hs : s ∈ ImprovedGenerator.clean_candidates env candidates) :
    (5 ≤ wordCount s ∧ wordCount s ≤ 30) ∧
      ∀ hv hsub : Bool, env.nlp s = some (hv, hsub) →
        hv = true ∧ hsub = true := by
  obtain ⟨a, _, ha⟩ := List.mem_filterMap.mp hs
  have hvalid : ImprovedGenerator.is_valid_sentence env.nlp s = true := by
    cases htok : env.sentTok a with
    | none => rw [htok] at ha; exact absurd ha (by simp)
    | some l =>
      cases l with
      | nil => rw [htok] at ha; exact absurd ha (by simp)
      | cons first rest =>
        rw [htok] at ha
        simp only at ha
        split_ifs at ha with hv
        obtain rfl := Option.some_injective _ ha
        exact hv
  have hwc : ¬(wordCount s < 5 ∨ 30 < wordCount s) := by
    intro hw
    unfold ImprovedGenerator.is_valid_sentence at hvalid
    rw [if_pos hw] at hvalid
    exact absurd hvalid (by simp)
  refine ⟨by omega, ?_⟩
  intro hv hsub hnlp
  unfold ImprovedGenerator.is_valid_sentence at hvalid
  rw [if_neg hwc, hnlp] at hvalid
  exact Bool.and_eq_true_iff.mp hvalid

/-- Witness for the amended C7, at the concrete environment `envW` whose
parse always succeeds with a verb and a subject. -/
theorem c7_amended_validity_witness :
    (5 ≤ wordCount "a b c d e" ∧ wordCount "a b c d e" ≤ 30) ∧
      (true = true ∧ true = true) :=
  ⟨(c7_amended_validity envW ["a b c d e"] "a b c d e" (by decide)).1,
    (c7_amended_validity envW ["a b c d e"] "a b c d e" (by decide)).2
      true true rfl⟩

namespace ImprovedGenerator

/-- A textually duplicated candidate that passes cleaning, validity and
the similarity band is returned twice: the filter has no deduplication
step. -/
theorem filter_sentences_keeps_duplicate_pair {Emb : Type} (env : NlpEnv Emb)
    (f : String → Emb) (h : env.encode = some f) (original s : String)
    (threshold : ℚ) (max_results : Nat)
    (htok : env.sentTok s = some [s])
    (hstrip : pyStrip s = s)
    (hvalid : is_valid_sentence env.nlp s = true)
    (hband : mkRat 3 10 < env.sim (f original) (f s) ∧
      env.sim (f original) (f s) < threshold)
    (hm : 2 ≤ max_results) :
    filter_sentences env original [s, s] threshold max_results = [s, s] := by
  have hclean : clean_candidates env [s, s] = [s, s] := by
    unfold clean_candidates
    simp [htok, hstrip, hvalid]
  rw [filter_sentences_encode_some env f h, hclean]
  have hsurv : band_survivors env (f original) ([s, s].map f) [s, s] threshold
      = [(s, env.sim (f original) (f s)), (s, env.sim (f original) (f s))] := by
    unfold band_survivors
    simp [hband.1, hband.2]
  rw [hsurv]
  have hsorted : List.insertionSort rankLE
      [(s, env.sim (f original) (f s)), (s, env.sim (f original) (f s))] =
      [(s, env.sim (f original) (f s)), (s, env.sim (f original) (f s))] := by
    simp [List.insertionSort, List.orderedInsert, rankLE]
  rw [hsorted, List.take_of_length_le (by simpa using hm)]
  simp

end ImprovedGenerator

/-- C6 counterexample: the filter does not deduplicate — on the duplicated
candidate list the returned false-statement list contains two textually
identical entries. -/
theorem c6_counterexample :
    ¬ List.Pairwise (fun a b => a ≠ b)
        (ImprovedGenerator.filter_sentences envW "o"
          ["a b c d e", "a b c d e"] (mkRat 3 4) 3) := by
  rw [ImprovedGenerator.filter_sentences_keeps_duplicate_pair envW fW rfl "o"
    "a b c d e" (mkRat 3 4) 3 rfl (by decide) (by decide)
    ⟨by decide, by decide⟩ (by decide)]
  decide

/-- C6 as amended: the candidate filter performs no deduplication —
textually identical candidates that each pass cleaning, structural
validity and the similarity band are each returned (subject to the
`max_results` cut). -/
theorem c6_amended_no_dedup {Emb : Type} (env : NlpEnv Emb)
    (f : String → Emb) (h : env.encode = some f) (original s : String)
    (threshold : ℚ) (max_results : Nat)
    (htok : env.sentTok s = some [s])
    (hstrip : pyStrip s = s)
    (hvalid : ImprovedGenerator.is_valid_sentence env.nlp s = true)
    (hband : mkRat 3 10 < env.sim (f original) (f s) ∧
      env.sim (f original) (f s) < threshold)
    (hm : 2 ≤ max_results) :
    ImprovedGenerator.filter_sentences env original [s, s] threshold
      max_results = [s, s] :=
  ImprovedGenerator.filter_sentences_keeps_duplicate_pair env f h original s
    threshold max_results htok hstrip hvalid hband hm

/-- Witness for the amended C6 at the concrete environment `envW`. -/
theorem c6_amended_no_dedup_witness :
    ImprovedGenerator.filter_sentences envW "o" ["a b c d e", "a b c d e"]
      (mkRat 3 4) 3 = ["a b c d e", "a b c d e"] :=
  c6_amended_no_dedup envW fW rfl "o" "a b c d e" (mkRat 3 4) 3 rfl
    (by decide) (by decide) ⟨by decide, by decide⟩ (by decide)

namespace ImprovedGenerator

/-- Every branch of the candidate filter truncates to `max_results`. -/
theorem length_filter_sentences_le {Emb : Type} (env : NlpEnv Emb)
    (original : String) (candidates : List String) (threshold : ℚ)
    (max_results : Nat) :
    (filter_sentences env original candidates threshold max_results).length ≤
      max_results := by
  unfold filter_sentences
  by_cases hc : candidates.isEmpty
  · simp [hc]
  · simp only [hc, Bool.false_eq_true, if_false]
    by_cases hcl : (clean_candidates env candidates).isEmpty
    · simp [hcl]
    · simp only [hcl, Bool.false_eq_true, if_false]
      cases get_embeddings env.encode
          ([original] ++ clean_candidates env candidates) with
      | none => rw [List.length_take]; exact Nat.min_le_left _ _
      | some l =>
        cases l with
        | nil => rw [List.length_take]; exact Nat.min_le_left _ _
        | cons e es =>
          rw [List.length_map, List.length_take]
          exact Nat.min_le_left _ _

end ImprovedGenerator

namespace ClaudeGenerator

/-- The parsed line list is truncated to the requested count. -/
theorem length_parse_statements_le (frag text_response : String)
    (num_statements : Nat) :
    (parse_statements frag text_response num_statements).length ≤
      num_statements := by
  unfold parse_statements
  rw [List.length_map, List.length_take]
  exact Nat.min_le_left _ _

end ClaudeGenerator

/-- C4: for every request, the returned false-sentence list never exceeds
the requested count — for the local GPT-2 adapter (through the filter's
`max_results` cut, embedding-failure fallback included) and for the remote
Claude adapter (which truncates the parsed lines). -/
theorem c4_length_le_requested {Emb E : Type} (env : NlpEnv Emb)
    (pipelineOut : Except E (List String)) (full_sentence : String)
    (apiContent : Except E (List String)) (frag : String)
    (num_statements : Nat) :
    (ImprovedGenerator.generate_false_statements env pipelineOut full_sentence
        num_statements).length ≤ num_statements ∧
      (ClaudeGenerator.generate_false_statements apiContent frag
        num_statements).length ≤ num_statements := by
  constructor
  · unfold ImprovedGenerator.generate_false_statements
    cases pipelineOut with
    | error e => exact Nat.zero_le _
    | ok generated => exact ImprovedGenerator.length_filter_sentences_le _ _ _ _ _
  · unfold ClaudeGenerator.generate_false_statements
    cases apiContent with
    | error e => exact Nat.zero_le _
    | ok contents =>
      cases contents with
      | nil => exact Nat.zero_le _
      | cons t ts => exact ClaudeGenerator.length_parse_statements_le _ _ _

namespace GeneratorFactory

/-- With a positive chunk size and equally long inputs, the chunked batch
loop is the per-item map over the zipped inputs. -/
theorem process_batches_eq_zip_aux {E : Type} (gen : GenFn E)
    (num_statements bsz : Nat) (hb : bsz ≠ 0) :
    ∀ n (ps fs : List String), ps.length ≤ n → ps.length = fs.length →
      process_batches gen num_statements bsz ps fs =
        (ps.zip fs).map (batch_item gen num_statements) := by
  intro n
  induction n with
  | zero =>
    intro ps fs hlen _
    have hnil : ps = [] := List.length_eq_zero.mp (Nat.le_zero.mp hlen)
    subst hnil
    rw [process_batches]
    simp
  | succ n ih =>
    intro ps fs hlen heq
    by_cases hps : ps.isEmpty
    · rw [List.isEmpty_iff] at hps
      subst hps
      rw [process_batches]
      simp
    · have hne : ps ≠ [] := by simpa [List.isEmpty_iff] using hps
      have hpos : 0 < ps.length := List.length_pos.mpr hne
      rw [process_batches, dif_neg (by simp [hps, hb])]
      have hdrop : (ps.drop bsz).length ≤ n := by
        rw [List.length_drop]
        omega
      rw [ih (ps.drop bsz) (fs.drop bsz) hdrop
        (by rw [List.length_drop, List.length_drop, heq])]
      rw [← List.map_append]
      congr 1
      rw [← List.zip_append (by rw [List.length_take, List.length_take, heq])]
      rw [List.take_append_drop, List.take_append_drop]

/-- `generate_statements_batch` on equally long inputs is the per-item map
over the zipped inputs, provided `max_batch_size ≥ 1` (its constructor
default is `10`). -/
theorem generate_statements_batch_eq_zip {E : Type} (gen : GenFn E)
    (max_batch_size : Nat) (ps fs : List String) (num_statements : Nat)
    (hlen : ps.length = fs.length) (hb : 1 ≤ max_batch_size) :
    generate_statements_batch gen max_batch_size ps fs num_statements =
      (ps.zip fs).map (batch_item gen num_statements) := by
  unfold generate_statements_batch
  by_cases hps : ps.isEmpty
  · rw [List.isEmpty_iff] at hps
    subst hps
    have : fs = [] := List.length_eq_zero.mp hlen.symm
    subst this
    simp
  · rw [if_neg (by simp [hps, hlen])]
    have hne : ps ≠ [] := by simpa [List.isEmpty_iff] using hps
    have hpos : 0 < ps.length := List.length_pos.mpr hne
    exact process_batches_eq_zip_aux gen num_statements
      (min max_batch_size ps.length) (by omega) ps.length ps fs le_rfl hlen

end GeneratorFactory

/-- C2: for a batch whose partial- and full-sentence lists have equal
length `n`, `generate_batch_async` returns exactly `n` result lists, and
when a generator is selected and the batch completes within the timeout,
position `i` holds exactly item `i`'s result, with an item's exception
converted into `[]` (by `batch_item`) without affecting the others. -/
theorem c2_batch_alignment {E : Type} (generators : GeneratorFactory.Registry E)
    (generator_type : String) (max_batch_size elapsed : Nat)
    (ps fs : List String) (num_statements : Nat)
    (hlen : ps.length = fs.length) (hb : 1 ≤ max_batch_size) :
    (GeneratorFactory.generate_batch_async generators generator_type
        max_batch_size elapsed ps fs num_statements).length = ps.length ∧
      ∀ gen, GeneratorFactory.get_generator generators generator_type = some gen →
        elapsed ≤ GeneratorFactory.batch_timeout ps.length →
        GeneratorFactory.generate_batch_async generators generator_type
            max_batch_size elapsed ps fs num_statements =
          (ps.zip fs).map (GeneratorFactory.batch_item gen num_statements) := by
  unfold GeneratorFactory.generate_batch_async
  cases hg : GeneratorFactory.get_generator generators generator_type with
  | none =>
    dsimp only
    constructor
    · simp
    · intro gen hgen
      exact absurd hgen (by simp)
  | some gen =>
    dsimp only
    by_cases ht : GeneratorFactory.batch_timeout ps.length < elapsed
    · rw [if_pos ht]
      constructor
      · simp
      · intro gen' _ hle
        exact absurd hle (by omega)
    · rw [if_neg ht]
      have hzip := GeneratorFactory.generate_statements_batch_eq_zip gen
        max_batch_size ps fs num_statements hlen hb
      constructor
      · rw [hzip, List.length_map, List.length_zip, hlen, Nat.min_self]
      · intro gen' hgen' _
        obtain rfl : gen = gen' := Option.some_injective _ hgen'
        exact hzip

/-- Witness for C2: a one-item batch through the concrete registry
`demoGens` yields exactly one result list. -/
theorem c2_batch_alignment_witness :
    (GeneratorFactory.generate_batch_async demoGens "gpt2" 10 0 ["a"] ["b"]
      3).length = 1 :=
  (c2_batch_alignment demoGens "gpt2" 10 0 ["a"] ["b"] 3 rfl (by decide)).1

/-- C5 counterexample: the repository has two versions of
`generate_batch_async`; at elapsed time `100` seconds a one-item batch
completes under the top-level factory's timeout (`max(120, 45·1) = 120`)
but already times out under the nested copy's timeout
(`max(60, 30·1) = 60`), so the claim's formula `max(120, 45·n)` does not
describe the cited nested version. -/
theorem c5_counterexample :
    GeneratorFactory.generate_batch_async_nested demoGens "gpt2" 10 100
        ["a"] ["b"] 3 = [[]] ∧
      GeneratorFactory.generate_batch_async demoGens "gpt2" 10 100
        ["a"] ["b"] 3 = [["x"]] ∧
      GeneratorFactory.batch_timeout_nested 1 ≠ GeneratorFactory.batch_timeout 1 := by
  refine ⟨by decide, ?_, by decide⟩
  unfold GeneratorFactory.generate_batch_async
  rw [show GeneratorFactory.get_generator demoGens "gpt2" =
    some demoGen from rfl]
  dsimp only
  rw [if_neg (by decide)]
  rw [GeneratorFactory.generate_statements_batch_eq_zip demoGen 10 ["a"] ["b"]
    3 rfl (by decide)]
  rfl

/-- C5 as amended: each factory version applies an overall batch timeout of
the form `max(lower_bound, per_item_budget · n)` — `max(120, 45·n)` in the
top-level `server/generator_factory.py` and `max(60, 30·n)` in the nested
`server/src/generators/generator_factory.py` — and on expiry each returns
one empty placeholder per input item rather than any partial completion. -/
theorem c5_amended_timeout {E : Type} (generators : GeneratorFactory.Registry E)
    (generator_type : String) (max_batch_size : Nat)
    (elapsed elapsed2 : Nat) (ps fs : List String) (num_statements : Nat)
    (gen gen2 : GeneratorFactory.GenFn E)
    (hg : GeneratorFactory.get_generator generators generator_type = some gen)
    (hg2 : GeneratorFactory.get_generator_nested generators generator_type =
      some gen2)
    (ht : GeneratorFactory.batch_timeout ps.length < elapsed)
    (ht2 : GeneratorFactory.batch_timeout_nested ps.length < elapsed2) :
    GeneratorFactory.generate_batch_async generators generator_type
        max_batch_size elapsed ps fs num_statements = ps.map (fun _ => []) ∧
      GeneratorFactory.generate_batch_async_nested generators generator_type
        max_batch_size elapsed2 ps fs num_statements = ps.map (fun _ => []) ∧
      GeneratorFactory.batch_timeout ps.length = max 120 (45 * ps.length) ∧
      GeneratorFactory.batch_timeout_nested ps.length = max 60 (30 * ps.length) := by
  refine ⟨?_, ?_, rfl, rfl⟩
  · unfold GeneratorFactory.generate_batch_async
    rw [hg]
    exact if_pos ht
  · unfold GeneratorFactory.generate_batch_async_nested
    rw [hg2]
    exact if_pos ht2

/-- Witness for the amended C5: a one-item batch through `demoGens` at
elapsed times `130` and `61` seconds times out in the respective version
and yields the empty placeholder list. -/
theorem c5_amended_timeout_witness :
    GeneratorFactory.generate_batch_async demoGens "gpt2" 10 130 ["a"] ["b"] 3 =
        (["a"].map (fun _ => []) : List (List String)) ∧
      GeneratorFactory.generate_batch_async_nested demoGens "gpt2" 10 61
        ["a"] ["b"] 3 = (["a"].map (fun _ => []) : List (List String)) ∧
      GeneratorFactory.batch_timeout 1 = max 120 (45 * 1) ∧
      GeneratorFactory.batch_timeout_nested 1 = max 60 (30 * 1) :=
  c5_amended_timeout demoGens "gpt2" 10 130 61 ["a"] ["b"] 3 demoGen demoGen
    rfl rfl (by decide) (by decide)

/-- C3 counterexample: with every generator kind unavailable (empty
registry), the `/generate/statements` endpoint returns a successful
response with an empty false-statement list — not a "no generator
available" signal (the factory only logs that condition and returns
`[]`). -/
theorem c3_counterexample :
    FastAPIApp.generate_statements pySplit
        ([] : GeneratorFactory.Registry Unit) "a b c d e" (some "a b") 3 =
      FastAPIApp.StatementsResponse.success "a b c d e" "a b" [] "gpt2" := by
  decide

/-- C3 as amended: when no generator is registered (so the factory's
lookup yields nothing), a `generateStatements` call that passes input
validation returns a successful response whose false-statement list is
empty; on this call path the "no generator available" condition is only
logged, never surfaced to the caller. -/
theorem c3_amended_empty_success {E : Type} (tokenize : String → List String)
    (generators : GeneratorFactory.Registry E) (full_sentence given : String)
    (num_statements : Nat)
    (hg : GeneratorFactory.get_generator generators "gpt2" = none)
    (hfull : full_sentence ≠ "") (h1 : 1 ≤ num_statements)
    (h10 : num_statements ≤ 10) (hgiven : given ≠ "") :
    FastAPIApp.generate_statements tokenize generators full_sentence
        (some given) num_statements =
      FastAPIApp.StatementsResponse.success full_sentence given [] "gpt2" := by
  unfold FastAPIApp.generate_statements
  rw [if_neg hfull, if_neg (by omega)]
  simp only [Option.getD_some]
  rw [if_neg hgiven]
  unfold GeneratorFactory.generate_false_statements
  rw [hg]

/-- Witness for the amended C3, on the concrete empty registry. -/
theorem c3_amended_empty_success_witness :
    FastAPIApp.generate_statements pySplit
        ([] : GeneratorFactory.Registry Unit) "x y z w" (some "x y") 4 =
      FastAPIApp.StatementsResponse.success "x y z w" "x y" [] "gpt2" :=
  c3_amended_empty_success pySplit [] "x y z w" "x y" 4 rfl (by decide)
    (by decide) (by decide) (by decide)
